import Mathlib

/-!
Shallow embedding of the instruction-processing core of the
elder-katts-premint-airdrop Solana program (src/processor.rs).

Addresses (`Pubkey`) are modelled as natural numbers.  An `AccountInfo`
carries the observable properties the processor reads: key, signer flag,
writable flag, owner, lamport balance and raw data bytes.  Each handler is
modelled up to the point where it delegates to the external mutation logic
(`util.rs`, which is not part of the provided source): a handler returns
`Except ProgramError C` where `C` records the arguments of the delegated
call, so `Except.error e` means the handler rejected with `e` before any
mutation, and `Except.ok c` means every validation step passed and the
external mutation logic was invoked with the arguments recorded in `c`.
-/

abbrev Pubkey := Nat

structure AccountInfo where
  key : Pubkey
  is_signer : Bool
  is_writable : Bool
  owner : Pubkey
  lamports : Nat
  data : List Nat
deriving DecidableEq, Repr

/-- Error kinds raised by the processor.  `Custom` wraps the program
specific `AirdropError` kinds, mirroring `AirdropError::into()` producing
`ProgramError::Custom` in the source. -/
inductive AirdropError where
  | SignerRequired
  | WriteableRequired
  | PdaCheckFailed
  | Uninitialized
deriving DecidableEq, Repr

inductive ProgramError where
  | NotEnoughAccountKeys
  | AccountAlreadyInitialized
  | IllegalOwner
  | InvalidAccountData
  | Custom (e : AirdropError)
deriving DecidableEq, Repr

/-- Model of `next_account_info` from the account-iterator: returns the
next account and the rest of the list, or `NotEnoughAccountKeys` when the
list is exhausted. -/
def next_account_info : List AccountInfo → Except ProgramError (AccountInfo × List AccountInfo)
  | [] => .error .NotEnoughAccountKeys
  | a :: rest => .ok (a, rest)

def assert_signer (acc : AccountInfo) : Except ProgramError Unit :=
  match acc.is_signer with
  | true => .ok ()
  | false => .error (.Custom .SignerRequired)

def assert_writeable (acc : AccountInfo) : Except ProgramError Unit :=
  match acc.is_writable with
  | true => .ok ()
  | false => .error (.Custom .WriteableRequired)

def assert_owned_by (acc : AccountInfo) (expected_owner : Pubkey) : Except ProgramError Unit :=
  match acc.owner == expected_owner with
  | true => .ok ()
  | false => .error .IllegalOwner

/-- Modelled from the spec: `find_mint_authority` lives in `pda.rs`, which
is not part of the provided source.  Per the spec it is the pure function
`deriveMintAuthority(configAddress) -> (address, bumpSeed)`, deterministic
and collision-resistant within the program namespace; we model it as an
injective pairing into a dedicated namespace tag, with a fixed bump. -/
def find_mint_authority (config : Pubkey) : Pubkey × Nat :=
  (Nat.pair 1 config, 255)

/-- Modelled from the spec: `find_airdrop_user_data` lives in `pda.rs`,
which is not part of the provided source.  Per the spec it is the pure
function `deriveUserRecord(configAddress, userAddress) -> (address, bumpSeed)`,
deterministic and collision-resistant; we model it as an injective pairing
into a dedicated namespace tag, with a fixed bump. -/
def find_airdrop_user_data (config user : Pubkey) : Pubkey × Nat :=
  (Nat.pair 2 (Nat.pair config user), 255)

/-- Modelled from the spec: the persisted Config record lives in
`state.rs`, which is not part of the provided source.  The processor only
reads its initialization flag, so the model keeps exactly that field. -/
structure AirdropConfig where
  is_initialized : Bool
deriving DecidableEq, Repr

/-- Modelled from the spec: `AirdropConfig::unpack_from_account` lives in
`state.rs`, which is not part of the provided source.  The byte-level
layout is an external codec per the spec; we model it as: empty account
data fails to deserialize, otherwise the initialization flag is set iff
the first data byte is nonzero. -/
def AirdropConfig.unpack_from_account (acc : AccountInfo) : Except ProgramError AirdropConfig :=
  match acc.data with
  | [] => .error .InvalidAccountData
  | b :: _ => .ok ⟨b != 0⟩

structure Rent where
  lamports_per_byte_year : Nat
deriving DecidableEq, Repr

/-- Modelled from the spec: `Rent::from_account_info` is part of the
external runtime library.  It reads the rent parameters from the sysvar
resource data and fails when that data is absent. -/
def Rent.from_account_info (acc : AccountInfo) : Except ProgramError Rent :=
  match acc.data with
  | [] => .error .InvalidAccountData
  | b :: _ => .ok ⟨b⟩

/-- Arguments with which `process_initialize_airdrop` invokes the external
mutation logic `process_initialize_airdrop_logic` (in `util.rs`, not part
of the provided source). -/
structure InitAirdropCall where
  airdrop_account : AccountInfo
  airdrop_authority : AccountInfo
  mint_authority : AccountInfo
  revenues_account : AccountInfo
  fee_payer : AccountInfo
  airdrop_amount : Nat
  metadata_prefix_bytes : List Nat
  symbol : List Nat
  price : Nat
  program_id : Pubkey
  rent : Rent
  bump : Nat
deriving DecidableEq, Repr

/-- Arguments with which `process_initialize_airdrop_user` invokes the
external mutation logic `process_initialize_airdrop_user_account_logic`
(in `util.rs`, not part of the provided source). -/
structure InitUserCall where
  user_data_account : AccountInfo
  user : AccountInfo
  airdrop : AccountInfo
  fee_payer : AccountInfo
  rent : Rent
  program_id : Pubkey
  bump : Nat
deriving DecidableEq, Repr

/-- The Initialize-Config handler (`process_initialize_airdrop` in
src/processor.rs): extracts six accounts, checks the config account
writable and owned by the program, the mint-authority account at the
derived address, and the fee payer a signer; then reads rent and delegates. -/
def process_initialize_airdrop (program_id : Pubkey) (accounts : List AccountInfo)
    (airdrop_amount : Nat) ( metadata_prefix_bytes : List Nat) (symbol : List Nat)
    (price : Nat) : Except ProgramError InitAirdropCall := do
  let (airdrop_account, iter) ← next_account_info accounts
  let (airdrop_authority, iter) ← next_account_info iter
  let (mint_authority, iter) ← next_account_info iter
  let (revenues_account, iter) ← next_account_info iter
  let (rent_acc, iter) ← next_account_info iter
  let (fee_payer, _) ← next_account_info iter
  assert_writeable airdrop_account
  assert_owned_by airdrop_account program_id
  let (mint_authority_pda, mint_authority_bump) := find_mint_authority airdrop_account.key
  if mint_authority_pda ≠ mint_authority.key then
    throw (.Custom .PdaCheckFailed)
  assert_signer fee_payer
  let rent ← Rent.from_account_info rent_acc
  pure { airdrop_account, airdrop_authority, mint_authority, revenues_account, fee_payer,
         airdrop_amount, metadata_prefix_bytes, symbol, price, program_id, rent,
         bump := mint_authority_bump }

/-- The Initialize-User-Record handler (`process_initialize_airdrop_user`
in src/processor.rs): extracts five accounts, checks the user-data account
at the derived address, not yet funded, writable; the config account owned
by the program, writable, deserializable and initialized; the fee payer a
signer; then reads rent and delegates. -/
def process_initialize_airdrop_user (program_id : Pubkey) (accounts : List AccountInfo) :
    Except ProgramError InitUserCall := do
  let (user_data_account, iter) ← next_account_info accounts
  let (user, iter) ← next_account_info iter
  let (airdrop, iter) ← next_account_info iter
  let (rent_acc, iter) ← next_account_info iter
  let (fee_payer, _) ← next_account_info iter
  let (user_data_account_pda, user_data_account_bump) :=
    find_airdrop_user_data airdrop.key user.key
  if user_data_account_pda ≠ user_data_account.key then
    throw (.Custom .PdaCheckFailed)
  if user_data_account.lamports > 0 then
    throw .AccountAlreadyInitialized
  assert_writeable user_data_account
  assert_owned_by airdrop program_id
  assert_writeable airdrop
  let airdrop_data ← AirdropConfig.unpack_from_account airdrop
  if !airdrop_data.is_initialized then
    throw (.Custom .Uninitialized)
  assert_signer fee_payer
  let rent ← Rent.from_account_info rent_acc
  pure { user_data_account, user, airdrop, fee_payer, rent, program_id,
         bump := user_data_account_bump }

/-- Result of the Mint-One handler: either a resource-exhaustion error from
account extraction, or divergence at the `todo!()` stub.  The constructor
`ok` exists to record that normal completion is representable but never
produced. -/
inductive MintOneResult where
  | ok
  | err (e : ProgramError)
  | panics
deriving DecidableEq, Repr

/-- The Mint-One handler (`process_mint_one` in src/processor.rs): extracts
sixteen accounts, then hits `todo!()`, which panics. -/
def process_mint_one (program_id : Pubkey) (accounts : List AccountInfo) : MintOneResult :=
  let extracted : Except ProgramError Unit := do
    let (_airdrop_config, iter) ← next_account_info accounts
    let (_user_data_account, iter) ← next_account_info iter
    let (_mint_account, iter) ← next_account_info iter
    let (_user, iter) ← next_account_info iter
    let (_user_token_account, iter) ← next_account_info iter
    let (_token_metadata_account, iter) ← next_account_info iter
    let (_mint_authority, iter) ← next_account_info iter
    let (_system_program, iter) ← next_account_info iter
    let (_clock_var, iter) ← next_account_info iter
    let (_rent_var, iter) ← next_account_info iter
    let (_token_program, iter) ← next_account_info iter
    let (_assoc_token_program, iter) ← next_account_info iter
    let (_token_metadata_program, iter) ← next_account_info iter
    let (_payer, iter) ← next_account_info iter
    let (_airdrop_authority, iter) ← next_account_info iter
    let (_revenue_wallet, _) ← next_account_info iter
    pure ()
  match extracted with
  | .error e => .err e
  | .ok _ => .panics

/-! Generic reduction lemmas for `Except` binds, used to unfold the
handler pipelines. -/

@[simp] theorem except_bind_ok {ε α β : Type} (a : α) (f : α → Except ε β) :
    (Except.ok a >>= f) = f a := rfl

@[simp] theorem except_bind_error {ε α β : Type} (e : ε) (f : α → Except ε β) :
    ((Except.error e : Except ε α) >>= f) = Except.error e := rfl

@[simp] theorem except_pure {ε α : Type} (a : α) : (pure a : Except ε α) = Except.ok a := rfl

/-- The error produced by a validation run, or `none` when validation
passed and the delegated mutation logic was reached. -/
def validationOutcome {α : Type} : Except ProgramError α → Option ProgramError
  | .error e => some e
  | .ok _ => none

/-- True exactly when validation passed and the handler delegated to the
external mutation logic. -/
def delegated {α : Type} : Except ProgramError α → Bool
  | .error _ => false
  | .ok _ => true

/-- Address with bit `i` flipped. -/
def flipBit (k : Pubkey) (i : Nat) : Pubkey := k ^^^ (2 ^ i)

theorem flipBit_ne (k : Pubkey) (i : Nat) : flipBit k i ≠ k := by
  intro h
  have h2 := congrArg (fun x => k ^^^ x) h
  simp only [flipBit, ← Nat.xor_assoc, Nat.xor_self, Nat.zero_xor] at h2
  exact absurd h2 (by positivity)

/-- The validation order of the Initialize-User-Record handler as the spec
states it: (a) derived address, (b) zero balance, (c) user-record
writable, (d) config owned by program, (e) config writable, (f) config
deserializes with initialization flag set, (g) fee payer signs; then rent
is read and the handler delegates. -/
def initUserRecordSpecOrder (program_id : Pubkey)
    (user_data_account user airdrop rent_acc fee_payer : AccountInfo) :
    Except ProgramError InitUserCall :=
  if (find_airdrop_user_data airdrop.key user.key).1 ≠ user_data_account.key then
    .error (.Custom .PdaCheckFailed)
  else if user_data_account.lamports > 0 then
    .error .AccountAlreadyInitialized
  else if !user_data_account.is_writable then
    .error (.Custom .WriteableRequired)
  else if !(airdrop.owner == program_id) then
    .error .IllegalOwner
  else if !airdrop.is_writable then
    .error (.Custom .WriteableRequired)
  else
    match AirdropConfig.unpack_from_account airdrop with
    | .error e => .error e
    | .ok airdrop_data =>
      if !airdrop_data.is_initialized then
        .error (.Custom .Uninitialized)
      else if !fee_payer.is_signer then
        .error (.Custom .SignerRequired)
      else
        match Rent.from_account_info rent_acc with
        | .error e => .error e
        | .ok rent =>
          .ok { user_data_account, user, airdrop, fee_payer, rent, program_id,
                bump := (find_airdrop_user_data airdrop.key user.key).2 }

/-- The validation order of the Initialize-Config handler as the spec
states it: (a) config writable, (b) config owned by program, (c) mint
authority at the derived address, (d) fee payer signs; then rent is read
and the handler delegates.  No check touches the authority or revenue
resources. -/
def initConfigSpecOrder (program_id : Pubkey)
    (airdrop_account airdrop_authority mint_authority revenues_account rent_acc
      fee_payer : AccountInfo)
    (airdrop_amount : Nat) ( metadata_prefix_bytes symbol : List Nat) (price : Nat) :
    Except ProgramError InitAirdropCall :=
  if !airdrop_account.is_writable then
    .error (.Custom .WriteableRequired)
  else if !(airdrop_account.owner == program_id) then
    .error .IllegalOwner
  else if (find_mint_authority airdrop_account.key).1 ≠ mint_authority.key then
    .error (.Custom .PdaCheckFailed)
  else if !fee_payer.is_signer then
    .error (.Custom .SignerRequired)
  else
    match Rent.from_account_info rent_acc with
    | .error e => .error e
    | .ok rent =>
      .ok { airdrop_account, airdrop_authority, mint_authority, revenues_account, fee_payer,
            airdrop_amount, metadata_prefix_bytes, symbol, price, program_id, rent,
            bump := (find_mint_authority airdrop_account.key).2 }

theorem initUser_eq_specOrder (program_id : Pubkey)
    (udr user airdrop rent_acc fee_payer : AccountInfo) (rest : List AccountInfo) :
    process_initialize_airdrop_user program_id
        (udr :: user :: airdrop :: rent_acc :: fee_payer :: rest)
      = initUserRecordSpecOrder program_id udr user airdrop rent_acc fee_payer := by
  simp only [process_initialize_airdrop_user, initUserRecordSpecOrder, next_account_info,
    except_bind_ok, except_pure, assert_writeable, assert_owned_by, assert_signer,
    AirdropConfig.unpack_from_account, Rent.from_account_info, find_airdrop_user_data]
  split
  · rfl
  · split
    · rfl
    · cases udr.is_writable
      · rfl
      · cases airdrop.owner == program_id
        · rfl
        · cases airdrop.is_writable
          · rfl
          · cases airdrop.data with
            | nil => rfl
            | cons b tl =>
              dsimp only
              cases b != 0
              · rfl
              · cases fee_payer.is_signer
                · rfl
                · cases rent_acc.data <;> rfl


theorem initConfig_eq_specOrder (program_id : Pubkey)
    (cfg auth ma rev rent_acc fee_payer : AccountInfo) (rest : List AccountInfo)
    (amount : Nat) (mp sym : List Nat) (price : Nat) :
    process_initialize_airdrop program_id
        (cfg :: auth :: ma :: rev :: rent_acc :: fee_payer :: rest) amount mp sym price
      = initConfigSpecOrder program_id cfg auth ma rev rent_acc fee_payer amount mp sym price := by
  simp only [process_initialize_airdrop, initConfigSpecOrder, next_account_info,
    except_bind_ok, except_pure, assert_writeable, assert_owned_by, assert_signer,
    Rent.from_account_info, find_mint_authority]
  cases cfg.is_writable <;> cases cfg.owner == program_id <;>
    cases fee_payer.is_signer <;> cases rent_acc.data <;> rfl

theorem find_airdrop_user_data_flip_config_ne (c u : Pubkey) (i : Nat) :
    (find_airdrop_user_data (flipBit c i) u).1 ≠ (find_airdrop_user_data c u).1 := by
  intro h
  have h2 := (Nat.pair_eq_pair.mp h).2
  exact flipBit_ne c i (Nat.pair_eq_pair.mp h2).1

theorem find_airdrop_user_data_flip_user_ne (c u : Pubkey) (i : Nat) :
    (find_airdrop_user_data c (flipBit u i)).1 ≠ (find_airdrop_user_data c u).1 := by
  intro h
  have h2 := (Nat.pair_eq_pair.mp h).2
  exact flipBit_ne u i (Nat.pair_eq_pair.mp h2).2

theorem rent_no_custom_error (acc : AccountInfo) (ae : AirdropError) :
    Rent.from_account_info acc ≠ .error (.Custom ae) := by
  unfold Rent.from_account_info
  cases acc.data <;> simp

theorem unpack_no_custom_error (acc : AccountInfo) (ae : AirdropError) :
    AirdropConfig.unpack_from_account acc ≠ .error (.Custom ae) := by
  unfold AirdropConfig.unpack_from_account
  cases acc.data <;> simp

theorem initUser_pda_iff (program_id : Pubkey)
    (udr user airdrop rent_acc fee_payer : AccountInfo) (rest : List AccountInfo) :
    process_initialize_airdrop_user program_id
        (udr :: user :: airdrop :: rent_acc :: fee_payer :: rest)
      = .error (.Custom .PdaCheckFailed)
    ↔ udr.key ≠ (find_airdrop_user_data airdrop.key user.key).1 := by
  rw [initUser_eq_specOrder]
  unfold initUserRecordSpecOrder
  split
  next h => exact iff_of_true rfl (Ne.symm h)
  next h =>
    have hk : udr.key = (find_airdrop_user_data airdrop.key user.key).1 :=
      (not_ne_iff.mp h).symm
    apply iff_of_false ?_ (by simp [hk])
    repeat' split
    all_goals try simp
    all_goals intro he
    all_goals subst he
    all_goals first
      | exact rent_no_custom_error _ _ (by assumption)
      | exact unpack_no_custom_error _ _ (by assumption)

/-- Claim C1: the Initialize-User-Record handler accepts the supplied
user-record address exactly when it equals the derived address: it
returns `PdaCheckFailed` (an error, so the delegated mutation logic never
runs) precisely when the supplied address differs from
`find_airdrop_user_data (config address, user address)`; moreover flipping
any single bit of either input address changes the derived address, so a
user-record address that was correct for the original inputs is rejected. -/
theorem c1_user_record_pda_check (program_id : Pubkey)
    (udr user airdrop rent_acc fee_payer : AccountInfo) (rest : List AccountInfo) :
    (process_initialize_airdrop_user program_id
        (udr :: user :: airdrop :: rent_acc :: fee_payer :: rest)
      = .error (.Custom .PdaCheckFailed)
      ↔ udr.key ≠ (find_airdrop_user_data airdrop.key user.key).1)
    ∧ (∀ i : Nat, udr.key = (find_airdrop_user_data airdrop.key user.key).1 →
        process_initialize_airdrop_user program_id
            (udr :: user :: { airdrop with key := flipBit airdrop.key i } ::
              rent_acc :: fee_payer :: rest)
          = .error (.Custom .PdaCheckFailed)
        ∧ process_initialize_airdrop_user program_id
            (udr :: { user with key := flipBit user.key i } :: airdrop ::
              rent_acc :: fee_payer :: rest)
          = .error (.Custom .PdaCheckFailed)) := by
  refine ⟨initUser_pda_iff program_id udr user airdrop rent_acc fee_payer rest,
    fun i hk => ⟨?_, ?_⟩⟩
  · apply (initUser_pda_iff program_id udr user _ rent_acc fee_payer rest).mpr
    intro hcon
    exact find_airdrop_user_data_flip_config_ne airdrop.key user.key i (hcon.symm.trans hk)
  · apply (initUser_pda_iff program_id udr _ airdrop rent_acc fee_payer rest).mpr
    intro hcon
    exact find_airdrop_user_data_flip_user_ne airdrop.key user.key i (hcon.symm.trans hk)

/-- Claim C1 witness: a concrete five-account input whose user-record
address 8 differs from the derived address 7 is rejected with
`PdaCheckFailed`. -/
theorem c1_user_record_pda_check_witness :
    process_initialize_airdrop_user 9
        [⟨8, false, true, 0, 0, []⟩, ⟨1, false, false, 0, 0, []⟩,
         ⟨0, false, true, 9, 0, [1]⟩, ⟨3, false, false, 0, 0, [4]⟩,
         ⟨5, true, false, 0, 0, []⟩]
      = .error (.Custom .PdaCheckFailed) :=
  (c1_user_record_pda_check 9 ⟨8, false, true, 0, 0, []⟩ ⟨1, false, false, 0, 0, []⟩
    ⟨0, false, true, 9, 0, [1]⟩ ⟨3, false, false, 0, 0, [4]⟩
    ⟨5, true, false, 0, 0, []⟩ []).1.mpr (by decide)

/-- Claim C4: the Initialize-User-Record handler is the pipeline that
applies its checks in exactly the spec order: derived address, zero
balance, user-record writable, config ownership, config writable, config
initialization flag, fee-payer signature; it returns the first failing
check's error and reaches the delegated mutation logic only after every
check passes. -/
theorem c4_user_record_check_order (program_id : Pubkey)
    (udr user airdrop rent_acc fee_payer : AccountInfo) (rest : List AccountInfo) :
    process_initialize_airdrop_user program_id
        (udr :: user :: airdrop :: rent_acc :: fee_payer :: rest)
      = initUserRecordSpecOrder program_id udr user airdrop rent_acc fee_payer :=
  initUser_eq_specOrder program_id udr user airdrop rent_acc fee_payer rest

/-- Claim C2: when the config account passes its writable and ownership
checks, the Initialize-Config handler rejects with `PdaCheckFailed`
exactly when the supplied mint-authority address differs from the address
derived from the config address. -/
theorem c2_mint_authority_pda_check (program_id : Pubkey)
    (cfg auth ma rev rent_acc fee_payer : AccountInfo) (rest : List AccountInfo)
    (amt : Nat) (mp sym : List Nat) (price : Nat)
    (hw : cfg.is_writable = true) (ho : cfg.owner = program_id) :
    process_initialize_airdrop program_id
        (cfg :: auth :: ma :: rev :: rent_acc :: fee_payer :: rest) amt mp sym price
      = .error (.Custom .PdaCheckFailed)
    ↔ ma.key ≠ (find_mint_authority cfg.key).1 := by
  rw [initConfig_eq_specOrder]
  unfold initConfigSpecOrder
  simp only [hw, ho, Bool.not_true, beq_self_eq_true, Bool.not_false, if_false,
    Bool.false_eq_true, if_neg, ite_false]
  split
  next h => exact iff_of_true rfl (Ne.symm h)
  next h =>
    have hk : ma.key = (find_mint_authority cfg.key).1 := (not_ne_iff.mp h).symm
    apply iff_of_false ?_ (by simp [hk])
    repeat' split
    all_goals try simp
    all_goals intro he
    all_goals subst he
    all_goals exact rent_no_custom_error _ _ (by assumption)

/-- Claim C2 witness: a concrete six-account input with a writable,
program-owned config account and a mint-authority address 5 differing
from the derived address 2 is rejected with `PdaCheckFailed`. -/
theorem c2_mint_authority_pda_check_witness :
    (process_initialize_airdrop 7
        [⟨0, false, true, 7, 0, [1]⟩, ⟨1, false, false, 0, 0, []⟩,
         ⟨5, false, false, 0, 0, []⟩, ⟨2, false, false, 0, 0, []⟩,
         ⟨3, false, false, 0, 0, [4]⟩, ⟨6, true, false, 0, 0, []⟩] 10 [] [] 20
      = .error (.Custom .PdaCheckFailed)
    ↔ (5 : Pubkey) ≠ (find_mint_authority 0).1) :=
  c2_mint_authority_pda_check 7 ⟨0, false, true, 7, 0, [1]⟩ ⟨1, false, false, 0, 0, []⟩
    ⟨5, false, false, 0, 0, []⟩ ⟨2, false, false, 0, 0, []⟩ ⟨3, false, false, 0, 0, [4]⟩
    ⟨6, true, false, 0, 0, []⟩ [] 10 [] [] 20 rfl rfl

/-- Claim C5: the Initialize-Config handler is the pipeline that applies
its checks in exactly the spec order: config writable, config ownership,
derived mint-authority address, fee-payer signature; rent is read and the
delegated mutation logic invoked only after all checks pass, and the
validation outcome is independent of the authority and revenue resources,
to which no check is applied. -/
theorem c5_config_check_order (program_id : Pubkey)
    (cfg auth ma rev rent_acc fee_payer : AccountInfo) (rest : List AccountInfo)
    (amt : Nat) (mp sym : List Nat) (price : Nat) :
    (process_initialize_airdrop program_id
        (cfg :: auth :: ma :: rev :: rent_acc :: fee_payer :: rest) amt mp sym price
      = initConfigSpecOrder program_id cfg auth ma rev rent_acc fee_payer amt mp sym price)
    ∧ (∀ auth2 rev2 : AccountInfo,
        validationOutcome (process_initialize_airdrop program_id
          (cfg :: auth2 :: ma :: rev2 :: rent_acc :: fee_payer :: rest) amt mp sym price)
        = validationOutcome (process_initialize_airdrop program_id
          (cfg :: auth :: ma :: rev :: rent_acc :: fee_payer :: rest) amt mp sym price)) := by
  refine ⟨initConfig_eq_specOrder program_id cfg auth ma rev rent_acc fee_payer rest
    amt mp sym price, fun auth2 rev2 => ?_⟩
  rw [initConfig_eq_specOrder, initConfig_eq_specOrder]
  unfold initConfigSpecOrder
  repeat' split
  all_goals simp_all [validationOutcome]

/-- Claim C3 counterexample: with all sixteen resources supplied and a
non-signing fee payer, the Mint-One handler panics at its stub instead of
failing with `SignerRequired`, so it is not the case that every handler
fails with `SignerRequired` on a non-signing fee payer. -/
theorem c3_counterexample :
    process_mint_one 0 (List.replicate 16 ⟨0, false, false, 0, 0, []⟩) = .panics
    ∧ MintOneResult.panics ≠ .err (.Custom .SignerRequired) := by
  exact ⟨by decide, by decide⟩

/-- Claim C3 (amended): for Initialize-Config and Initialize-User-Record a
non-signing fee payer always makes the handler return an error, so the
delegated mutation logic never runs; the error is `SignerRequired`
whenever every check preceding the signer check passes.  Mint-One
performs no signer check: its validation is an unimplemented stub. -/
theorem c3_fee_payer_must_sign :
    (∀ (program_id : Pubkey) (cfg auth ma rev rent_acc fee_payer : AccountInfo)
        (rest : List AccountInfo) (amt : Nat) (mp sym : List Nat) (price : Nat),
      fee_payer.is_signer = false →
      (∃ e, process_initialize_airdrop program_id
          (cfg :: auth :: ma :: rev :: rent_acc :: fee_payer :: rest) amt mp sym price
        = .error e)
      ∧ (cfg.is_writable = true → cfg.owner = program_id →
          ma.key = (find_mint_authority cfg.key).1 →
          process_initialize_airdrop program_id
              (cfg :: auth :: ma :: rev :: rent_acc :: fee_payer :: rest) amt mp sym price
            = .error (.Custom .SignerRequired)))
    ∧ (∀ (program_id : Pubkey) (udr user airdrop rent_acc fee_payer : AccountInfo)
        (rest : List AccountInfo),
      fee_payer.is_signer = false →
      (∃ e, process_initialize_airdrop_user program_id
          (udr :: user :: airdrop :: rent_acc :: fee_payer :: rest) = .error e)
      ∧ (udr.key = (find_airdrop_user_data airdrop.key user.key).1 →
          udr.lamports = 0 → udr.is_writable = true →
          airdrop.owner = program_id → airdrop.is_writable = true →
          AirdropConfig.unpack_from_account airdrop = .ok ⟨true⟩ →
          process_initialize_airdrop_user program_id
              (udr :: user :: airdrop :: rent_acc :: fee_payer :: rest)
            = .error (.Custom .SignerRequired))) := by
  constructor
  · intro program_id cfg auth ma rev rent_acc fee_payer rest amt mp sym price hs
    constructor
    · rw [initConfig_eq_specOrder]
      unfold initConfigSpecOrder
      repeat' split
      all_goals first | exact ⟨_, rfl⟩ | simp_all
    · intro hw ho hk
      rw [initConfig_eq_specOrder]
      unfold initConfigSpecOrder
      simp [hw, ho, hk, hs]
  · intro program_id udr user airdrop rent_acc fee_payer rest hs
    constructor
    · rw [initUser_eq_specOrder]
      unfold initUserRecordSpecOrder
      repeat' split
      all_goals first | exact ⟨_, rfl⟩ | simp_all
    · intro h1 h2 h3 h4 h5 hu
      rw [initUser_eq_specOrder]
      unfold initUserRecordSpecOrder
      simp [h1, h2, h3, h4, h5, hu, hs]

/-- Claim C3 witness: a concrete Initialize-Config input whose only
failing condition is the non-signing fee payer is rejected with
`SignerRequired`. -/
theorem c3_fee_payer_must_sign_witness :
    process_initialize_airdrop 7
        [⟨0, false, true, 7, 0, [1]⟩, ⟨1, false, false, 0, 0, []⟩,
         ⟨2, false, false, 0, 0, []⟩, ⟨4, false, false, 0, 0, []⟩,
         ⟨3, false, false, 0, 0, [4]⟩, ⟨6, false, false, 0, 0, []⟩] 10 [] [] 20
      = .error (.Custom .SignerRequired) :=
  (c3_fee_payer_must_sign.1 7 ⟨0, false, true, 7, 0, [1]⟩ ⟨1, false, false, 0, 0, []⟩
    ⟨2, false, false, 0, 0, []⟩ ⟨4, false, false, 0, 0, []⟩ ⟨3, false, false, 0, 0, [4]⟩
    ⟨6, false, false, 0, 0, []⟩ [] 10 [] [] 20 rfl).2 rfl rfl (by decide)

/-- Claim C6 counterexample: a user-record account with nonzero balance
and a mismatched address is rejected with `PdaCheckFailed`, not with the
already-initialized error, so the already-initialized check does not
precede the derivation check. -/
theorem c6_counterexample :
    process_initialize_airdrop_user 9
        [⟨999, false, true, 0, 5, []⟩, ⟨1, false, false, 0, 0, []⟩,
         ⟨0, false, true, 9, 0, [1]⟩, ⟨3, false, false, 0, 0, [4]⟩,
         ⟨5, true, false, 0, 0, []⟩]
      = .error (.Custom .PdaCheckFailed)
    ∧ (Except.error (.Custom .PdaCheckFailed) : Except ProgramError InitUserCall)
      ≠ .error .AccountAlreadyInitialized := by
  refine ⟨rfl, ?_⟩
  intro h
  simp at h

/-- Claim C6 (amended): the Initialize-User-Record handler rejects every
user-record account whose balance is nonzero — the result is always an
error, so no record is created — but the derivation check runs first: the
already-initialized error surfaces exactly when the supplied address
matches the derived one, and `PdaCheckFailed` otherwise. -/
theorem c6_nonzero_balance_rejected (program_id : Pubkey)
    (udr user airdrop rent_acc fee_payer : AccountInfo) (rest : List AccountInfo)
    (hl : 0 < udr.lamports) :
    (∃ e, process_initialize_airdrop_user program_id
        (udr :: user :: airdrop :: rent_acc :: fee_payer :: rest) = .error e)
    ∧ (udr.key = (find_airdrop_user_data airdrop.key user.key).1 →
        process_initialize_airdrop_user program_id
          (udr :: user :: airdrop :: rent_acc :: fee_payer :: rest)
          = .error .AccountAlreadyInitialized)
    ∧ (udr.key ≠ (find_airdrop_user_data airdrop.key user.key).1 →
        process_initialize_airdrop_user program_id
          (udr :: user :: airdrop :: rent_acc :: fee_payer :: rest)
          = .error (.Custom .PdaCheckFailed)) := by
  rw [initUser_eq_specOrder]
  unfold initUserRecordSpecOrder
  have hgt : udr.lamports > 0 := hl
  refine ⟨?_, fun hk => ?_, fun hk => ?_⟩
  · split
    · exact ⟨_, rfl⟩
    · exact ⟨_, rfl⟩
  · rw [if_neg (by simp [hk]), if_pos hgt]
  · rw [if_pos (Ne.symm hk)]

/-- Claim C6 witness: a concrete user-record account with balance five and
matching derived address is rejected with the already-initialized error. -/
theorem c6_nonzero_balance_rejected_witness :
    process_initialize_airdrop_user 9
        [⟨7, false, true, 0, 5, []⟩, ⟨1, false, false, 0, 0, []⟩,
         ⟨0, false, true, 9, 0, [1]⟩, ⟨3, false, false, 0, 0, [4]⟩,
         ⟨5, true, false, 0, 0, []⟩]
      = .error .AccountAlreadyInitialized :=
  (c6_nonzero_balance_rejected 9 ⟨7, false, true, 0, 5, []⟩ ⟨1, false, false, 0, 0, []⟩
    ⟨0, false, true, 9, 0, [1]⟩ ⟨3, false, false, 0, 0, [4]⟩ ⟨5, true, false, 0, 0, []⟩ []
    (by decide)).2.1 (by decide)

/-- Claim C7: supplying fewer resources than the fixed arity (six for
Initialize-Config, five for Initialize-User-Record, sixteen for Mint-One)
makes the handler fail with the resource-exhaustion error
`NotEnoughAccountKeys`; the failure comes from account extraction, which
precedes every check, so no check runs and no account is inspected. -/
theorem c7_resource_exhaustion (program_id : Pubkey) (accounts : List AccountInfo)
    (amt : Nat) (mp sym : List Nat) (price : Nat) :
    (accounts.length < 6 →
      process_initialize_airdrop program_id accounts amt mp sym price
        = .error .NotEnoughAccountKeys)
    ∧ (accounts.length < 5 →
      process_initialize_airdrop_user program_id accounts = .error .NotEnoughAccountKeys)
    ∧ (accounts.length < 16 →
      process_mint_one program_id accounts = .err .NotEnoughAccountKeys) := by
  rcases accounts with _ | ⟨a1, _ | ⟨a2, _ | ⟨a3, _ | ⟨a4, _ | ⟨a5, _ | ⟨a6, _ | ⟨a7, _ | ⟨a8,
    _ | ⟨a9, _ | ⟨a10, _ | ⟨a11, _ | ⟨a12, _ | ⟨a13, _ | ⟨a14, _ | ⟨a15,
    _ | ⟨a16, rest⟩⟩⟩⟩⟩⟩⟩⟩⟩⟩⟩⟩⟩⟩⟩⟩
  all_goals refine ⟨fun h => ?_, fun h => ?_, fun h => ?_⟩
  all_goals first
    | rfl
    | (simp only [List.length_cons, List.length_nil] at h; omega)

/-- Claim C7 witness: each handler applied to the empty resource list
fails with `NotEnoughAccountKeys`. -/
theorem c7_resource_exhaustion_witness :
    process_initialize_airdrop 0 [] 0 [] [] 0 = .error .NotEnoughAccountKeys
    ∧ process_initialize_airdrop_user 0 [] = .error .NotEnoughAccountKeys
    ∧ process_mint_one 0 [] = .err .NotEnoughAccountKeys :=
  ⟨(c7_resource_exhaustion 0 [] 0 [] [] 0).1 (by decide),
   (c7_resource_exhaustion 0 [] 0 [] [] 0).2.1 (by decide),
   (c7_resource_exhaustion 0 [] 0 [] [] 0).2.2 (by decide)⟩

/-- Claim C8 counterexample: a second Initialize-Config invocation on an
already-initialized config account (first data byte set) that is writable
and program-owned, with matching mint-authority address and signing fee
payer, is not rejected: validation passes and the delegated mutation
logic runs, so the handler does not prevent re-initialization. -/
theorem c8_counterexample :
    delegated (process_initialize_airdrop 7
        [⟨0, false, true, 7, 100, [1]⟩, ⟨1, false, false, 0, 0, []⟩,
         ⟨2, false, false, 0, 0, []⟩, ⟨4, false, false, 0, 0, []⟩,
         ⟨3, false, false, 0, 0, [4]⟩, ⟨6, true, false, 0, 0, []⟩] 10 [] [] 20) = true := by
  rfl

/-- Claim C8 (amended): the Initialize-Config handler performs no check of
the config record initialization flag: whenever the config account is
writable and program-owned, the mint-authority address matches, the fee
payer signs and the rent sysvar deserializes, validation passes and the
delegated mutation logic runs again, even on an already-initialized
config account; re-initialization is not rejected by this handler. -/
theorem c8_reinitialization_not_rejected (program_id : Pubkey)
    (cfg auth ma rev rent_acc fee_payer : AccountInfo) (rest : List AccountInfo)
    (amt : Nat) (mp sym : List Nat) (price : Nat) (r : Rent)
    (hinit : AirdropConfig.unpack_from_account cfg = .ok ⟨true⟩)
    (hw : cfg.is_writable = true) (ho : cfg.owner = program_id)
    (hk : ma.key = (find_mint_authority cfg.key).1) (hs : fee_payer.is_signer = true)
    (hr : Rent.from_account_info rent_acc = .ok r) :
    delegated (process_initialize_airdrop program_id
      (cfg :: auth :: ma :: rev :: rent_acc :: fee_payer :: rest) amt mp sym price) = true := by
  rw [initConfig_eq_specOrder]
  unfold initConfigSpecOrder
  simp [hw, ho, hk, hs, hr, delegated]

/-- Claim C8 witness: a concrete already-initialized, otherwise valid
re-invocation reaches the delegated mutation logic. -/
theorem c8_reinitialization_not_rejected_witness :
    delegated (process_initialize_airdrop 9
        [⟨1, false, true, 9, 50, [2]⟩, ⟨10, false, false, 0, 0, []⟩,
         ⟨3, false, false, 0, 0, []⟩, ⟨4, false, false, 0, 0, []⟩,
         ⟨6, false, false, 0, 0, [8]⟩, ⟨7, true, false, 0, 0, []⟩] 11 [] [] 22) = true :=
  c8_reinitialization_not_rejected 9 ⟨1, false, true, 9, 50, [2]⟩ ⟨10, false, false, 0, 0, []⟩
    ⟨3, false, false, 0, 0, []⟩ ⟨4, false, false, 0, 0, []⟩ ⟨6, false, false, 0, 0, [8]⟩
    ⟨7, true, false, 0, 0, []⟩ [] 11 [] [] 22 ⟨8⟩ rfl rfl rfl (by decide) rfl rfl

/-- Claim C9: the validation outcome of the Initialize-User-Record handler
does not depend on the user resource signer flag or owner address:
replacing them with any other values leaves the outcome unchanged, so a
signing fee payer can create a user record for an arbitrary user address
without that user signing. -/
theorem c9_user_signature_not_required (program_id : Pubkey)
    (udr user airdrop rent_acc fee_payer : AccountInfo) (rest : List AccountInfo)
    (s : Bool) (o : Pubkey) :
    validationOutcome (process_initialize_airdrop_user program_id
        (udr :: { user with is_signer := s, owner := o } :: airdrop :: rent_acc ::
          fee_payer :: rest))
      = validationOutcome (process_initialize_airdrop_user program_id
        (udr :: user :: airdrop :: rent_acc :: fee_payer :: rest)) := by
  obtain ⟨uk, us, uw, uo, ul, ud⟩ := user
  rw [initUser_eq_specOrder, initUser_eq_specOrder]
  unfold initUserRecordSpecOrder
  dsimp only
  repeat' split
  all_goals simp_all [validationOutcome]

/-- Claim C10: once the Mint-One handler is supplied at least its sixteen
resources, account extraction succeeds and the handler hits the `todo!()`
stub, which panics: it neither completes normally nor returns an error. -/
theorem c10_mint_one_diverges (program_id : Pubkey) (accounts : List AccountInfo)
    (h : 16 ≤ accounts.length) :
    process_mint_one program_id accounts = .panics
    ∧ process_mint_one program_id accounts ≠ .ok
    ∧ ∀ e, process_mint_one program_id accounts ≠ .err e := by
  have hp : process_mint_one program_id accounts = .panics := by
    rcases accounts with _ | ⟨a1, _ | ⟨a2, _ | ⟨a3, _ | ⟨a4, _ | ⟨a5, _ | ⟨a6, _ | ⟨a7, _ | ⟨a8,
      _ | ⟨a9, _ | ⟨a10, _ | ⟨a11, _ | ⟨a12, _ | ⟨a13, _ | ⟨a14, _ | ⟨a15,
      _ | ⟨a16, rest⟩⟩⟩⟩⟩⟩⟩⟩⟩⟩⟩⟩⟩⟩⟩⟩
    all_goals first
      | rfl
      | (simp only [List.length_cons, List.length_nil] at h; omega)
  refine ⟨hp, ?_, fun e => ?_⟩
  · rw [hp]
    intro hc
    cases hc
  · rw [hp]
    intro hc
    cases hc

/-- Claim C10 witness: sixteen concrete resources make Mint-One panic. -/
theorem c10_mint_one_diverges_witness :
    process_mint_one 3 (List.replicate 16 ⟨2, true, true, 3, 1, [0]⟩) = .panics :=
  (c10_mint_one_diverges 3 (List.replicate 16 ⟨2, true, true, 3, 1, [0]⟩) (by decide)).1
